import Mathlib

/-!
Verification of the income-statement parsing engine
(`parsers/income_statement_parser.py`, `parsers/base_parser.py`).

The Python code is shallowly embedded: cell text is `String` (worked on as
`List Char`), machine floats are modelled as exact rationals `ℚ`, Python
dictionaries with a fixed key set are structures with `Option` fields for
keys that may be absent, and raised exceptions caught at the `parse`
boundary are modelled by `Except`-style branching.  Rational arithmetic is
expressed through `mkRat`-based helpers (`qAdd`, `qsum`, `round2`) so that
every definition evaluates by kernel reduction on concrete inputs; `qAdd`
is proved equal to `+` on `ℚ` below, which connects the development to the
Mathlib algebra lemmas.
-/

/-- Lowercase a character, models Python `str.lower` on the alphabets the
parser meets: ASCII plus the Cyrillic block (А-Я, Ё, Є, І, Ї, Ґ). -/
def lowerChar (c : Char) : Char :=
  let n := c.toNat
  if 65 ≤ n ∧ n ≤ 90 then Char.ofNat (n + 32)
  else if 0x410 ≤ n ∧ n ≤ 0x42F then Char.ofNat (n + 0x20)
  else if n = 0x401 then Char.ofNat 0x451
  else if n = 0x404 ∨ n = 0x406 ∨ n = 0x407 then Char.ofNat (n + 0x50)
  else if n = 0x490 then Char.ofNat 0x491
  else c

/-- Lowercase a character list, models Python `str.lower`. -/
def lowerStr (s : List Char) : List Char := s.map lowerChar

/-- Whitespace class of Python's `str.strip` and regex `\s`. -/
def isSpaceChar (c : Char) : Bool :=
  c = ' ' ∨ c = '\t' ∨ c = '\n' ∨ c = '\r' ∨ c = Char.ofNat 11 ∨ c = Char.ofNat 12

/-- Word-character class of Python's regex `\b` (Unicode mode): ASCII
alphanumerics, underscore, and Cyrillic letters. -/
def isWordChar (c : Char) : Bool :=
  c.isAlphanum ∨ c = '_' ∨ (0x400 ≤ c.toNat ∧ c.toNat ≤ 0x4FF)

/-- Substring test, models Python `needle in haystack`. -/
def containsSub (hay pat : List Char) : Bool :=
  match hay with
  | [] => pat.isPrefixOf ([] : List Char)
  | _ :: t => pat.isPrefixOf hay || containsSub t pat

/-- Auxiliary scanner for `findSub`, carries the current index. -/
def findSubAux (pat : List Char) (i : Int) : List Char → Int
  | [] => if pat.isPrefixOf ([] : List Char) then i else -1
  | c :: t => if pat.isPrefixOf (c :: t) then i else findSubAux pat (i + 1) t

/-- Index of the first occurrence of `pat` in `hay`, `-1` if absent;
models Python `str.find`. -/
def findSub (hay pat : List Char) : Int := findSubAux pat 0 hay

/-- Strip leading and trailing whitespace, models Python `str.strip`. -/
def stripChars (s : List Char) : List Char :=
  ((s.dropWhile isSpaceChar).reverse.dropWhile isSpaceChar).reverse

/-- Numeric value of a digit list (most significant first). -/
def natOfDigits (ds : List Char) : Nat :=
  ds.foldl (fun acc c => 10 * acc + (c.toNat - 48)) 0

/-- Rational addition computed through `mkRat`; proved equal to `+` below. -/
def qAdd (a b : ℚ) : ℚ := mkRat (a.num * b.den + b.num * a.den) (a.den * b.den)

/-- Sum of a list of rationals computed through `qAdd`. -/
def qsum (l : List ℚ) : ℚ := l.foldr qAdd (mkRat 0 1)

/-- Rounding to 2 decimal places, models Python `round(x, 2)` on the
parser's amounts.  Exact halves round up here where Python's float
rounding is driven by the binary representation; no claim depends on the
tie case. -/
def round2 (q : ℚ) : ℚ :=
  mkRat (Int.ediv (q.num * 200 + (q.den : Int)) ((q.den : Int) * 2)) 100

/-- Value of `intPart.fracPart` as an exact rational; models Python
`float` applied to the matched digits of an amount. -/
def ratOfParts (intPart fracPart : List Char) : ℚ :=
  mkRat ((natOfDigits intPart : Int) * (10 ^ fracPart.length : Nat) + (natOfDigits fracPart : Int))
    (10 ^ fracPart.length)

/-- Word boundary test for the position before a match. -/
def boundaryBefore (prev : Option Char) : Bool :=
  match prev with
  | none => true
  | some p => !isWordChar p

/-- Word boundary test for the position after a match. -/
def boundaryAfter (rest : List Char) : Bool :=
  match rest with
  | [] => true
  | c :: _ => !isWordChar c

/-- Match of `\b(20\d{2})\b` anchored at the head of `s`. -/
def yearAt (prev : Option Char) (s : List Char) : Option String :=
  match s with
  | '2' :: '0' :: d1 :: d2 :: rest =>
    if d1.isDigit ∧ d2.isDigit ∧ boundaryBefore prev = true ∧ boundaryAfter rest = true then
      some (String.mk ['2', '0', d1, d2])
    else none
  | _ => none

/-- Leftmost-match scanner for `findYear`. -/
def findYearAux (prev : Option Char) : List Char → Option String
  | [] => none
  | c :: t =>
    match yearAt prev (c :: t) with
    | some y => some y
    | none => findYearAux (some c) t

/-- First match of `re.search(r'\b(20\d{2})\b', s)`. -/
def findYear (s : List Char) : Option String := findYearAux none s

/-- Match of `\b(\d{3})\b` anchored at the head of `s`. -/
def codeAt (prev : Option Char) (s : List Char) : Option String :=
  match s with
  | a :: b :: c :: rest =>
    if a.isDigit ∧ b.isDigit ∧ c.isDigit ∧ boundaryBefore prev = true ∧
        boundaryAfter rest = true then
      some (String.mk [a, b, c])
    else none
  | _ => none

/-- Leftmost-match scanner for `findCode`. -/
def findCodeAux (prev : Option Char) : List Char → Option String
  | [] => none
  | c :: t =>
    match codeAt prev (c :: t) with
    | some y => some y
    | none => findCodeAux (some c) t

/-- First match of `re.search(r'\b(\d{3})\b', s)`. -/
def findCode (s : List Char) : Option String := findCodeAux none s

/-- Match of `(\d+(?:[.,]\d+)?)` anchored at the head of `s` (head is a
digit): greedy digit run, then an optional separator with a following
digit run. -/
def amountAt (s : List Char) : ℚ :=
  let p := s.span Char.isDigit
  match p.2 with
  | sep :: r2 =>
    if (sep = '.' ∨ sep = ',') ∧ (r2.headD 'x').isDigit then
      ratOfParts p.1 (r2.takeWhile Char.isDigit)
    else ratOfParts p.1 []
  | [] => ratOfParts p.1 []

/-- Leftmost-match scanner for `findAmount`. -/
def findAmountAux : List Char → Option ℚ
  | [] => none
  | c :: t => if c.isDigit then some (amountAt (c :: t)) else findAmountAux t

/-- First match of `re.search(r'(\d+(?:[.,]\d+)?)', s)`, already converted
to its numeric value (the source applies `float` to the matched text). -/
def findAmount (s : List Char) : Option ℚ := findAmountAux s

/-- Remove every space, models `str.replace(' ', '')`. -/
def removeSpaces (s : List Char) : List Char := s.filter (fun c => c ≠ ' ')

/-- Replace commas by dots, models `str.replace(',', '.')`. -/
def commaToDot (s : List Char) : List Char := s.map (fun c => if c = ',' then '.' else c)

/-- Dash class `[-–—]` of the code-name pattern. -/
def isDashChar (c : Char) : Bool := c = '-' ∨ c = Char.ofNat 0x2013 ∨ c = Char.ofNat 0x2014

/-- Group of `\s*(.+)` after a dash: greedy whitespace skip, then the
longest non-newline run, with the regex backtracking that salvages a
whitespace-only remainder. -/
def dashNameGroup (r2 : List Char) : Option (List Char) :=
  let r3 := r2.dropWhile isSpaceChar
  if r3.isEmpty then
    let lastRun := (r2.reverse.takeWhile (fun ch => ch ≠ '\n')).reverse
    if lastRun.isEmpty then none else some lastRun
  else some (r3.takeWhile (fun ch => ch ≠ '\n'))

/-- Match of `\d{3}\s*[-–—]\s*(.+)` anchored at the head of `s`, giving
the captured group. -/
def codeNameAt (s : List Char) : Option (List Char) :=
  match s with
  | a :: b :: c :: r =>
    if a.isDigit ∧ b.isDigit ∧ c.isDigit then
      match r.dropWhile isSpaceChar with
      | d :: r2 => if isDashChar d then dashNameGroup r2 else none
      | [] => none
    else none
  | _ => none

/-- Leftmost-match scanner for `findCodeName`. -/
def findCodeNameAux : List Char → Option (List Char)
  | [] => none
  | c :: t =>
    match codeNameAt (c :: t) with
    | some g => some g
    | none => findCodeNameAux t

/-- First match group of `re.search(r'\d{3}\s*[-–—]\s*(.+)', s)`. -/
def findCodeName (s : List Char) : Option (List Char) := findCodeNameAux s

/-- Match of `\b\d+\.\d{2}\b` anchored at the head of `s` (head is a
digit with a word boundary before it). -/
def amount2At (s : List Char) : Option ℚ :=
  let p := s.span Char.isDigit
  match p.2 with
  | '.' :: e1 :: e2 :: r2 =>
    if e1.isDigit ∧ e2.isDigit ∧ boundaryAfter r2 = true then
      some (ratOfParts p.1 [e1, e2])
    else none
  | _ => none

/-- Leftmost-match scanner for `findAmount2dp`. -/
def findAmount2dpAux (prev : Option Char) : List Char → Option ℚ
  | [] => none
  | c :: t =>
    if boundaryBefore prev = true ∧ c.isDigit then
      match amount2At (c :: t) with
      | some q => some q
      | none => findAmount2dpAux (some c) t
    else findAmount2dpAux (some c) t

/-- First match of `re.findall(r'\b(\d+\.\d{2})\b', line)` as a value;
the source only uses `amounts[0]` and the emptiness of the match list. -/
def findAmount2dp (s : List Char) : Option ℚ := findAmount2dpAux none s

/-- Match of `\b(\d{3})\s*-\s*([^\n]+)` anchored at the head of `s`. -/
def codeDashAt (s : List Char) : Option (String × List Char) :=
  match s with
  | a :: b :: c :: r =>
    if a.isDigit ∧ b.isDigit ∧ c.isDigit then
      match r.dropWhile isSpaceChar with
      | d :: r2 =>
        if d = '-' then
          match dashNameGroup r2 with
          | some g => some (String.mk [a, b, c], g)
          | none => none
        else none
      | [] => none
    else none
  | _ => none

/-- Leftmost-match scanner for `findCodeDash`. -/
def findCodeDashAux (prev : Option Char) : List Char → Option (String × List Char)
  | [] => none
  | c :: t =>
    if boundaryBefore prev = true then
      match codeDashAt (c :: t) with
      | some g => some g
      | none => findCodeDashAux (some c) t
    else findCodeDashAux (some c) t

/-- First match of `re.search(r'\b(\d{3})\s*-\s*([^\n]+)', line)`. -/
def findCodeDash (s : List Char) : Option (String × List Char) := findCodeDashAux none s

/-- One positional span of a cell; `offset` models `span.get("offset", d)`
with the call-site default. -/
structure Span where
  offset : Option Nat
deriving DecidableEq, Repr

/-- One bounding region of a table; only its presence is inspected by the
source (`pageNumber` is read for logging alone). -/
structure BoundingRegion where
  pageNumber : Option Nat
deriving DecidableEq, Repr

/-- One table cell as delivered by the document-analysis service;
`rowIndex`, `columnIndex` and `content` model `cell.get(key, default)`
with defaults `0`, `0`, `""`. -/
structure Cell where
  rowIndex : Nat := 0
  columnIndex : Nat := 0
  content : String := ""
  spans : List Span := []
deriving DecidableEq, Repr

/-- One table object (`rowCount`, `columnCount`, `cells`,
`boundingRegions`); the input contract guarantees the two counts. -/
structure Table where
  rowCount : Nat
  columnCount : Nat
  cells : List Cell := []
  boundingRegions : List BoundingRegion := []
deriving DecidableEq, Repr

/-- One extracted income record (`year`, `code`, `code_name`, `amount`). -/
structure IncomeRecord where
  year : String
  code : String
  code_name : String
  amount : ℚ
deriving DecidableEq, Repr

/-- Header keyword `"рік"`. -/
def rikKw : List Char := "рік".data

/-- Header keyword `"нарахованого"`. -/
def narahKw : List Char := "нарахованого".data

/-- Header keyword `"код"`. -/
def kodKw : List Char := "код".data

/-- Header keyword `"ознаки"`. -/
def oznakyKw : List Char := "ознаки".data

/-- Row-skip keyword `"період"`, also the content marker searched by
`parse`. -/
def periodKw : List Char := "період".data

/-- Content marker `"дата форматування"` searched by `parse`. -/
def dataFormatKw : List Char := "дата форматування".data

/-- The zero-initialised `row_count × col_count` grid of empty strings. -/
def emptyGrid (row_count col_count : Nat) : List (List String) :=
  List.replicate row_count (List.replicate col_count "")

/-- Write one cell's content at `(rowIndex, columnIndex)`, models
`table[row_idx][col_idx] = content`. -/
def writeCell (t : List (List String)) (cell : Cell) : List (List String) :=
  t.set cell.rowIndex ((t.getD cell.rowIndex []).set cell.columnIndex cell.content)

/-- One loop iteration of `_build_table_structure`: in-range cells are
written, out-of-range cells are ignored. -/
def buildStep (row_count col_count : Nat) (t : List (List String)) (cell : Cell) :
    List (List String) :=
  if cell.rowIndex < row_count ∧ cell.columnIndex < col_count then writeCell t cell else t

/-- `_build_table_structure(cells, row_count, col_count)`. -/
def build_table_structure (cells : List Cell) (row_count col_count : Nat) :
    List (List String) :=
  cells.foldl (buildStep row_count col_count) (emptyGrid row_count col_count)

/-- Read back a grid position; absent positions are the empty string. -/
def getEntry (t : List (List String)) (i j : Nat) : String := (t.getD i []).getD j ""

/-- Mutable state of the header-keyword search in
`_extract_from_merged_tables`. -/
structure HeaderState where
  col_year : Option Nat := none
  col_amount : Option Nat := none
  col_code : Option Nat := none
  header_found : Bool := false
deriving DecidableEq, Repr

/-- The initial header state (`col_year = col_amount = col_code = None`,
`header_found = False`). -/
def initHeader : HeaderState := {}

/-- Keyword checks of one header-scan cell: substring tests on the
lowercased content, later matches overwrite earlier ones. -/
def scanCell (st : HeaderState) (col_idx : Nat) (cell_content : String) : HeaderState :=
  let lc := lowerStr cell_content.data
  let st1 := if containsSub lc rikKw then
    { st with col_year := some col_idx, header_found := true } else st
  let st2 := if containsSub lc narahKw then { st1 with col_amount := some col_idx } else st1
  if containsSub lc kodKw ∧ containsSub lc oznakyKw then
    { st2 with col_code := some col_idx } else st2

/-- Scan the cells of one row left to right, carrying the column index. -/
def scanRowFrom (st : HeaderState) (col_idx : Nat) : List String → HeaderState
  | [] => st
  | c :: cs => scanRowFrom (scanCell st col_idx c) (col_idx + 1) cs

/-- Scan one row (`for col_idx, cell_content in enumerate(row)`). -/
def scanRow (st : HeaderState) (row : List String) : HeaderState := scanRowFrom st 0 row

/-- Scan a list of rows in order. -/
def scanGridRows (st : HeaderState) : List (List String) → HeaderState
  | [] => st
  | r :: rs => scanGridRows (scanRow st r) rs

/-- Header scan over the first `min(5, len(table_data))` rows of a grid. -/
def scanGrid (st : HeaderState) (grid : List (List String)) : HeaderState :=
  scanGridRows st (grid.take 5)

/-- Field extraction for one data row of `_extract_from_merged_tables`:
header-looking and blank rows are skipped, then year, amount and code are
extracted in order, any failure dropping the row. -/
def extractRowRecord (col_year col_amount col_code : Nat) (row : List String) :
    Option IncomeRecord :=
  let year_cell := row.getD col_year ""
  let amount_cell := row.getD col_amount ""
  let code_cell := row.getD col_code ""
  if containsSub (lowerStr year_cell.data) rikKw ∨
      containsSub (lowerStr year_cell.data) periodKw then none
  else if (stripChars year_cell.data).isEmpty ∧ (stripChars amount_cell.data).isEmpty ∧
      (stripChars code_cell.data).isEmpty then none
  else
    match findYear year_cell.data with
    | none => none
    | some year =>
      match findAmount (commaToDot (removeSpaces amount_cell.data)) with
      | none => none
      | some amount =>
        match findCode code_cell.data with
        | none => none
        | some code =>
          let code_name := match findCodeName code_cell.data with
            | some g => String.mk (stripChars g)
            | none => ""
          some { year := year, code := code, code_name := code_name, amount := amount }

/-- Loop state of `_extract_from_merged_tables`: the shared column
indices/flag and the accumulated records. -/
structure ExtractState where
  header : HeaderState := initHeader
  records : List IncomeRecord := []
deriving DecidableEq, Repr

/-- One iteration of the table loop in `_extract_from_merged_tables`:
empty-cell tables are skipped, the header keywords are searched until
found, and data rows (all rows, except row 0 of table 0) are extracted
once all three columns are known. -/
def processTablePart (st : ExtractState) (table_idx : Nat) (table : Table) : ExtractState :=
  if table.cells.isEmpty then st
  else
    let table_data := build_table_structure table.cells table.rowCount table.columnCount
    let hdr := if st.header.header_found then st.header else scanGrid st.header table_data
    match hdr.col_year, hdr.col_amount, hdr.col_code with
    | some cy, some ca, some cc =>
      let start_row := if table_idx = 0 then 1 else 0
      { header := hdr,
        records := st.records ++ (table_data.drop start_row).filterMap
          (extractRowRecord cy ca cc) }
    | _, _, _ => { header := hdr, records := st.records }

/-- The table loop of `_extract_from_merged_tables`
(`for table_idx, table in enumerate(tables)`). -/
def processTables (st : ExtractState) (table_idx : Nat) : List Table → ExtractState
  | [] => st
  | t :: ts => processTables (processTablePart st table_idx t) (table_idx + 1) ts

/-- `_extract_from_merged_tables(tables)`. -/
def extract_from_merged_tables (tables : List Table) : List IncomeRecord :=
  (processTables {} 0 tables).records

/-- Line extraction of `_extract_from_text`: year, first two-decimal
amount, and `code - name` pattern, any failure dropping the line. -/
def extractTextLine (line : List Char) : Option IncomeRecord :=
  match findYear line with
  | none => none
  | some year =>
    match findAmount2dp line with
    | none => none
    | some amount =>
      match findCodeDash line with
      | none => none
      | some cd =>
        some { year := year, code := cd.1, code_name := String.mk (stripChars cd.2),
               amount := amount }

/-- `_extract_from_text(content)`. -/
def extract_from_text (content : String) : List IncomeRecord :=
  (content.data.splitOn '\n').filterMap extractTextLine

/-- Code-point comparison of strings, models Python string `<`. -/
def strLtB : List Char → List Char → Bool
  | [], [] => false
  | [], _ :: _ => true
  | _ :: _, [] => false
  | a :: as, b :: bs =>
    if a.toNat < b.toNat then true
    else if b.toNat < a.toNat then false
    else strLtB as bs

/-- Non-strict code-point order on strings. -/
def strLeB (s t : String) : Bool := !(strLtB t.data s.data)

/-- The order `strLeB` as a relation, used for sorting dictionary keys the
way Python `sorted` does. -/
def sLe (s t : String) : Prop := strLeB s t = true

instance : DecidableRel sLe := fun s t => by unfold sLe; infer_instance

/-- Ascending list of the distinct elements of `l`, models
`sorted(dict.keys())` for a dictionary whose keys were inserted from
`l`. -/
def sortKeys (l : List String) : List String := List.insertionSort sLe l.dedup

/-- The years present in a record list, ascending. -/
def yearsOf (records : List IncomeRecord) : List String :=
  sortKeys (records.map IncomeRecord.year)

/-- The codes present for one year, ascending. -/
def codesOf (records : List IncomeRecord) (year : String) : List String :=
  sortKeys ((records.filter (fun r => r.year == year)).map IncomeRecord.code)

/-- The records accumulated in `grouped[year][code]`. -/
def bucket (records : List IncomeRecord) (year code : String) : List IncomeRecord :=
  records.filter (fun r => r.year == year && r.code == code)

/-- `grouped[year][code]["total"]`: the summed amounts of one bucket. -/
def bucketTotal (records : List IncomeRecord) (year code : String) : ℚ :=
  qsum ((bucket records year code).map IncomeRecord.amount)

/-- `grouped[year][code]["name"]`: the first non-empty `code_name` of the
bucket in arrival order. -/
def bucketName (records : List IncomeRecord) (year code : String) : String :=
  (((bucket records year code).map IncomeRecord.code_name).find? (fun s => s ≠ "")).getD ""

/-- One output entry `{"name": ..., "amount": ...}`. -/
structure CodeEntry where
  name : String
  amount : ℚ
deriving DecidableEq, Repr

/-- One output year: the per-code entries in ascending code order plus the
`"_total"` key, modelled as the `total` field. -/
structure YearLedger where
  entries : List (String × CodeEntry)
  total : ℚ
deriving DecidableEq, Repr

/-- The output ledger of one year: per-code entries in ascending code
order with rounded amounts, and `_total` recomputed as the rounded sum of
the unrounded per-code totals. -/
def yearLedgerOf (records : List IncomeRecord) (year : String) : YearLedger :=
  { entries := (codesOf records year).map (fun code =>
      (code, { name := bucketName records year code,
               amount := round2 (bucketTotal records year code) })),
    total := round2 (qsum ((codesOf records year).map
      (fun code => bucketTotal records year code))) }

/-- `_group_and_sum(records)`: years ascending, each mapped to its
ledger. -/
def group_and_sum (records : List IncomeRecord) : List (String × YearLedger) :=
  (yearsOf records).map (fun year => (year, yearLedgerOf records year))

/-- The `summary` object of the output. -/
structure Summary where
  total_years : Nat
  total_amount : ℚ
  years : List String
deriving DecidableEq, Repr

/-- `_create_summary(grouped_data)`. -/
def create_summary (grouped : List (String × YearLedger)) : Summary :=
  { total_years := grouped.length,
    total_amount := round2 (qsum (grouped.map (fun p => p.2.total))),
    years := grouped.map Prod.fst }

/-- Modelled from the spec: one mismatch entry of the ReconciliationReport
(`{year, our_total, expected, diff}`); no reconciler exists in the source. -/
structure MismatchEntry where
  year : String
  our_total : ℚ
  expected : ℚ
  diff : ℚ
deriving DecidableEq, Repr

/-- Modelled from the spec: the `verification` object
(`ReconciliationReport`) that the spec's output contract describes; the
source `parse` never constructs one. -/
structure ReconciliationReport where
  matchList : List (String × ℚ × ℚ)
  mismatches : List MismatchEntry
  our_grand_total : ℚ
  expected_grand_total : ℚ
  total_diff : ℚ
  total_match : Bool
deriving DecidableEq, Repr

/-- The `analyzeResult` payload: `content` may be absent, `tables`
defaults to `[]` (`analyzeResult.get("tables", [])`). -/
structure AnalyzeResult where
  content : Option String
  tables : List Table := []
deriving DecidableEq, Repr

/-- The top-level analysis payload; `analyzeResult` may be absent. -/
structure AzurePayload where
  analyzeResult : Option AnalyzeResult
deriving DecidableEq, Repr

/-- The dictionary returned by `parse`, with the spec's optional output
keys as `Option` fields; the source writes `success`/`data`/`summary` on
success and `success`/`error`/`data` on failure, and never writes
`verification`. -/
structure ParseResult where
  success : Bool
  data : List (String × YearLedger)
  summary : Option Summary
  error : Option String
  verification : Option ReconciliationReport
deriving DecidableEq, Repr

/-- `BaseParser.validate_result(azure_result)`; a raised `ValueError` is
the `Except.error` branch, `none` models a falsy `azure_result`. -/
def validate_result (azure_result : Option AzurePayload) : Except String Bool :=
  match azure_result with
  | none => Except.error "Azure result is empty"
  | some p =>
    match p.analyzeResult with
    | none => Except.error "Missing 'analyzeResult' in Azure response"
    | some ar =>
      match ar.content with
      | none => Except.error "Missing 'content' in analyzeResult"
      | some _ => Except.ok true

/-- Minimum of a list of naturals (used on a nonempty list of offsets). -/
def minNatList : List Nat → Nat
  | [] => 999999
  | x :: xs => xs.foldl Nat.min x

/-- Maximum of a list of naturals (used on a nonempty list of offsets). -/
def maxNatList : List Nat → Nat
  | [] => 0
  | x :: xs => xs.foldl Nat.max x

/-- One iteration of the table loop of `_filter_relevant_tables`. -/
def filterTableStep (period_pos date_format_pos : Int) (acc : List Table) (table : Table) :
    List Table :=
  if table.cells.isEmpty then acc
  else
    let cells_with_spans := table.cells.filter (fun c => !c.spans.isEmpty)
    if cells_with_spans.isEmpty then
      if !table.boundingRegions.isEmpty ∧ period_pos > 0 then acc ++ [table] else acc
    else
      let min_offset := minNatList (cells_with_spans.map
        (fun c => ((c.spans.headD { offset := none }).offset).getD 999999))
      let max_offset := maxNatList (cells_with_spans.map
        (fun c => ((c.spans.headD { offset := none }).offset).getD 0))
      if (min_offset : Int) > period_pos then
        if date_format_pos = -1 ∨ (max_offset : Int) < date_format_pos then acc ++ [table]
        else acc
      else acc

/-- `_filter_relevant_tables(tables, content, period_pos,
date_format_pos)`; `content` is passed but unused, as in the source. -/
def filter_relevant_tables (tables : List Table) (content : String)
    (period_pos date_format_pos : Int) : List Table :=
  if period_pos = -1 then tables
  else tables.foldl (filterTableStep period_pos date_format_pos) []

/-- `IncomeStatementParser.parse(azure_result)`: validation failures are
caught at the boundary and returned as `success = False` with the error
string; otherwise marker positions are located, tables filtered, records
extracted (falling back to text extraction when no table record was
found), grouped and summarised. -/
def parse (azure_result : Option AzurePayload) : ParseResult :=
  match azure_result with
  | none =>
    { success := false, data := [], summary := none,
      error := some "Azure result is empty", verification := none }
  | some p =>
    match p.analyzeResult with
    | none =>
      { success := false, data := [], summary := none,
        error := some "Missing 'analyzeResult' in Azure response", verification := none }
    | some ar =>
      match ar.content with
      | none =>
        { success := false, data := [], summary := none,
          error := some "Missing 'content' in analyzeResult", verification := none }
      | some content =>
        let period_pos := findSub (lowerStr content.data) periodKw
        let date_format_pos := findSub (lowerStr content.data) dataFormatKw
        let relevant := filter_relevant_tables ar.tables content period_pos date_format_pos
        let income_data := extract_from_merged_tables relevant
        let income_data := if income_data.isEmpty then extract_from_text content
          else income_data
        let grouped := group_and_sum income_data
        { success := true, data := grouped, summary := some (create_summary grouped),
          error := none, verification := none }

/-- Bool test: the cell's indices lie inside the grid bounds. -/
def cellInRange (row_count col_count : Nat) (cl : Cell) : Bool :=
  decide (cl.rowIndex < row_count) && decide (cl.columnIndex < col_count)

/-- Bool test: the cell addresses position `(i, j)`. -/
def cellAt (i j : Nat) (cl : Cell) : Bool :=
  cl.rowIndex == i && cl.columnIndex == j

/-- The grouped output with every `name` field blanked; used to state
which part of the aggregate is independent of record order. -/
def eraseNames (out : List (String × YearLedger)) : List (String × YearLedger) :=
  out.map (fun p =>
    (p.1, { entries := p.2.entries.map (fun q => (q.1, { name := "", amount := q.2.amount })),
            total := p.2.total }))

/-- Concrete document for C1: two data rows summing to 150.00 and a
printed subtotal row carrying 150.00, so the printed total matches the
data sum exactly. -/
def c1tbl : Table :=
  { rowCount := 4, columnCount := 3,
    cells := [
      { rowIndex := 0, columnIndex := 0, content := "рік" },
      { rowIndex := 0, columnIndex := 1, content := "Сума нарахованого доходу" },
      { rowIndex := 0, columnIndex := 2, content := "Код та назва ознаки доходу" },
      { rowIndex := 1, columnIndex := 0, content := "2022" },
      { rowIndex := 1, columnIndex := 1, content := "100.00" },
      { rowIndex := 1, columnIndex := 2, content := "101 - Заробітна плата" },
      { rowIndex := 2, columnIndex := 0, content := "2022" },
      { rowIndex := 2, columnIndex := 1, content := "50.00" },
      { rowIndex := 2, columnIndex := 2, content := "102 - Премія" },
      { rowIndex := 3, columnIndex := 0, content := "Всього" },
      { rowIndex := 3, columnIndex := 1, content := "150.00" },
      { rowIndex := 3, columnIndex := 2, content := "" } ] }

/-- The C1 input payload. -/
def c1doc : Option AzurePayload :=
  some { analyzeResult := some { content := some "довідка", tables := [c1tbl] } }

/-- Concrete document for C3: a structurally valid payload that carries
zero table fragments (fewer than two). -/
def c3doc : Option AzurePayload :=
  some { analyzeResult := some { content := some "текст без таблиць", tables := [] } }

/-- First fragment for C4: a header row followed by one data row. -/
def c4tblA : Table :=
  { rowCount := 2, columnCount := 3,
    cells := [
      { rowIndex := 0, columnIndex := 0, content := "рік" },
      { rowIndex := 0, columnIndex := 1, content := "сума нарахованого" },
      { rowIndex := 0, columnIndex := 2, content := "код ознаки" },
      { rowIndex := 1, columnIndex := 0, content := "2022" },
      { rowIndex := 1, columnIndex := 1, content := "100.00" },
      { rowIndex := 1, columnIndex := 2, content := "101" } ] }

/-- Second fragment for C4: a single data row, and no row anywhere in it
whose column-0 text is `"1"`. -/
def c4tblB : Table :=
  { rowCount := 1, columnCount := 3,
    cells := [
      { rowIndex := 0, columnIndex := 0, content := "2023" },
      { rowIndex := 0, columnIndex := 1, content := "50.00" },
      { rowIndex := 0, columnIndex := 2, content := "102" } ] }

/-- Witness fragment for the amended C4: header row plus two data rows. -/
def c4wtbl : Table :=
  { rowCount := 3, columnCount := 3,
    cells := [
      { rowIndex := 0, columnIndex := 0, content := "рік" },
      { rowIndex := 0, columnIndex := 1, content := "сума нарахованого" },
      { rowIndex := 0, columnIndex := 2, content := "код ознаки" },
      { rowIndex := 1, columnIndex := 0, content := "2021" },
      { rowIndex := 1, columnIndex := 1, content := "10.00" },
      { rowIndex := 1, columnIndex := 2, content := "104" },
      { rowIndex := 2, columnIndex := 0, content := "2021" },
      { rowIndex := 2, columnIndex := 1, content := "20.00" },
      { rowIndex := 2, columnIndex := 2, content := "105" } ] }

/-- Concrete table for C5: the keyword header row has `"рік"` (not `"1"`)
in column 0, and no cell of the whole table reads `"1"`. -/
def c5tbl : Table :=
  { rowCount := 2, columnCount := 3,
    cells := [
      { rowIndex := 0, columnIndex := 0, content := "рік" },
      { rowIndex := 0, columnIndex := 1, content := "сума нарахованого" },
      { rowIndex := 0, columnIndex := 2, content := "код ознаки" },
      { rowIndex := 1, columnIndex := 0, content := "2024" },
      { rowIndex := 1, columnIndex := 1, content := "75.00" },
      { rowIndex := 1, columnIndex := 2, content := "103" } ] }

/-- Witness table for the amended C5: no cell contains the `"рік"`
keyword. -/
def c5wtbl : Table :=
  { rowCount := 2, columnCount := 2,
    cells := [
      { rowIndex := 0, columnIndex := 0, content := "x" },
      { rowIndex := 0, columnIndex := 1, content := "y" },
      { rowIndex := 1, columnIndex := 0, content := "2022" },
      { rowIndex := 1, columnIndex := 1, content := "50.00" } ] }

/-- C6 record: same year/code as `c6rec2` but a different name. -/
def c6rec1 : IncomeRecord :=
  { year := "2022", code := "101", code_name := "Зарплата", amount := mkRat 1 1 }

/-- C6 record: same year/code as `c6rec1` but a different name. -/
def c6rec2 : IncomeRecord :=
  { year := "2022", code := "101", code_name := "Премія", amount := mkRat 1 1 }

/-- Header-bearing fragment for C7, five rows so that the header scan
window of the split and unsplit presentations coincides. -/
def c7tbl0 : Table :=
  { rowCount := 5, columnCount := 3,
    cells := [
      { rowIndex := 0, columnIndex := 0, content := "рік" },
      { rowIndex := 0, columnIndex := 1, content := "сума нарахованого" },
      { rowIndex := 0, columnIndex := 2, content := "код ознаки" },
      { rowIndex := 1, columnIndex := 0, content := "2021" },
      { rowIndex := 1, columnIndex := 1, content := "10.00" },
      { rowIndex := 1, columnIndex := 2, content := "101" },
      { rowIndex := 2, columnIndex := 0, content := "2021" },
      { rowIndex := 2, columnIndex := 1, content := "20.00" },
      { rowIndex := 2, columnIndex := 2, content := "102" },
      { rowIndex := 3, columnIndex := 0, content := "2022" },
      { rowIndex := 3, columnIndex := 1, content := "30.00" },
      { rowIndex := 3, columnIndex := 2, content := "101" },
      { rowIndex := 4, columnIndex := 0, content := "2022" },
      { rowIndex := 4, columnIndex := 1, content := "40.00" },
      { rowIndex := 4, columnIndex := 2, content := "103" } ] }

/-- First headerless continuation fragment for C7. -/
def c7tbl1 : Table :=
  { rowCount := 1, columnCount := 3,
    cells := [
      { rowIndex := 0, columnIndex := 0, content := "2023" },
      { rowIndex := 0, columnIndex := 1, content := "50.00" },
      { rowIndex := 0, columnIndex := 2, content := "105" } ] }

/-- Second headerless continuation fragment for C7. -/
def c7tbl2 : Table :=
  { rowCount := 1, columnCount := 3,
    cells := [
      { rowIndex := 0, columnIndex := 0, content := "2023" },
      { rowIndex := 0, columnIndex := 1, content := "60.00" },
      { rowIndex := 0, columnIndex := 2, content := "105" } ] }

/-- The unsplit presentation of the C7 fragments: the same rows in one
table, continuation rows re-indexed below the anchored fragment. -/
def c7tblU : Table :=
  { rowCount := 7, columnCount := 3,
    cells := [
      { rowIndex := 0, columnIndex := 0, content := "рік" },
      { rowIndex := 0, columnIndex := 1, content := "сума нарахованого" },
      { rowIndex := 0, columnIndex := 2, content := "код ознаки" },
      { rowIndex := 1, columnIndex := 0, content := "2021" },
      { rowIndex := 1, columnIndex := 1, content := "10.00" },
      { rowIndex := 1, columnIndex := 2, content := "101" },
      { rowIndex := 2, columnIndex := 0, content := "2021" },
      { rowIndex := 2, columnIndex := 1, content := "20.00" },
      { rowIndex := 2, columnIndex := 2, content := "102" },
      { rowIndex := 3, columnIndex := 0, content := "2022" },
      { rowIndex := 3, columnIndex := 1, content := "30.00" },
      { rowIndex := 3, columnIndex := 2, content := "101" },
      { rowIndex := 4, columnIndex := 0, content := "2022" },
      { rowIndex := 4, columnIndex := 1, content := "40.00" },
      { rowIndex := 4, columnIndex := 2, content := "103" },
      { rowIndex := 5, columnIndex := 0, content := "2023" },
      { rowIndex := 5, columnIndex := 1, content := "50.00" },
      { rowIndex := 5, columnIndex := 2, content := "105" },
      { rowIndex := 6, columnIndex := 0, content := "2023" },
      { rowIndex := 6, columnIndex := 1, content := "60.00" },
      { rowIndex := 6, columnIndex := 2, content := "105" } ] }

/-- Table for the C8 witness document: its only data row has an
unparseable amount. -/
def c8tbl : Table :=
  { rowCount := 2, columnCount := 3,
    cells := [
      { rowIndex := 0, columnIndex := 0, content := "рік" },
      { rowIndex := 0, columnIndex := 1, content := "сума нарахованого" },
      { rowIndex := 0, columnIndex := 2, content := "код ознаки" },
      { rowIndex := 1, columnIndex := 0, content := "2022" },
      { rowIndex := 1, columnIndex := 1, content := "немає" },
      { rowIndex := 1, columnIndex := 2, content := "101" } ] }

/-- Concrete document for C8: after the row drop, zero valid records
remain. -/
def c8doc : Option AzurePayload :=
  some { analyzeResult := some { content := some "без даних", tables := [c8tbl] } }

/-- Concrete cell list for the C9 witness: one in-range cell, one
out-of-range cell. -/
def c9cells : List Cell :=
  [ { rowIndex := 0, columnIndex := 1, content := "a" },
    { rowIndex := 5, columnIndex := 0, content := "oob" } ]

/-- Earlier duplicate cell for the C10 witness. -/
def c10a : Cell := { rowIndex := 1, columnIndex := 1, content := "first" }

/-- Later duplicate cell for the C10 witness. -/
def c10b : Cell := { rowIndex := 1, columnIndex := 1, content := "second" }

/-- Concrete record list for the C2 witness. -/
def c2recs : List IncomeRecord :=
  [ { year := "2022", code := "101", code_name := "", amount := mkRat 3 2 },
    { year := "2022", code := "102", code_name := "", amount := mkRat 1 2 },
    { year := "2023", code := "101", code_name := "", amount := mkRat 5 1 } ]

/-- Short header fragment for the C7 counterexample: only two rows, so
the unsplit presentation's five-row scan window reaches into the
continuation rows. -/
def c7btbl0 : Table :=
  { rowCount := 2, columnCount := 3,
    cells := [
      { rowIndex := 0, columnIndex := 0, content := "рік" },
      { rowIndex := 0, columnIndex := 1, content := "нарахованого" },
      { rowIndex := 0, columnIndex := 2, content := "код ознаки" },
      { rowIndex := 1, columnIndex := 0, content := "2022" },
      { rowIndex := 1, columnIndex := 1, content := "10.00" },
      { rowIndex := 1, columnIndex := 2, content := "101" } ] }

/-- Continuation fragment for the C7 counterexample: its code cell's name
happens to contain the amount-column keyword `"нарахованого"`. -/
def c7btbl1 : Table :=
  { rowCount := 1, columnCount := 3,
    cells := [
      { rowIndex := 0, columnIndex := 0, content := "2022" },
      { rowIndex := 0, columnIndex := 1, content := "20.00" },
      { rowIndex := 0, columnIndex := 2, content := "101 - нарахованого" } ] }

/-- The unsplit presentation of the two C7 counterexample fragments. -/
def c7btblU : Table :=
  { rowCount := 3, columnCount := 3,
    cells := [
      { rowIndex := 0, columnIndex := 0, content := "рік" },
      { rowIndex := 0, columnIndex := 1, content := "нарахованого" },
      { rowIndex := 0, columnIndex := 2, content := "код ознаки" },
      { rowIndex := 1, columnIndex := 0, content := "2022" },
      { rowIndex := 1, columnIndex := 1, content := "10.00" },
      { rowIndex := 1, columnIndex := 2, content := "101" },
      { rowIndex := 2, columnIndex := 0, content := "2022" },
      { rowIndex := 2, columnIndex := 1, content := "20.00" },
      { rowIndex := 2, columnIndex := 2, content := "101 - нарахованого" } ] }

/-- The header state after all three columns have been located. -/
def foundHeader (cy ca cc : Nat) : HeaderState :=
  { col_year := some cy, col_amount := some ca, col_code := some cc, header_found := true }

/-- `qAdd` agrees with Mathlib's addition on `ℚ`. -/
theorem qAdd_eq_add (a b : ℚ) : qAdd a b = a + b := by
  have ha : ((a.den : ℚ)) ≠ 0 := by exact_mod_cast a.den_nz
  have hb : ((b.den : ℚ)) ≠ 0 := by exact_mod_cast b.den_nz
  rw [qAdd, Rat.mkRat_eq_div]
  push_cast
  conv_rhs => rw [← Rat.num_div_den a, ← Rat.num_div_den b, div_add_div _ _ ha hb]
  ring_nf

/-- `qsum` agrees with `List.sum` on `ℚ`. -/
theorem qsum_eq_sum (l : List ℚ) : qsum l = l.sum := by
  induction l with
  | nil => simp [qsum]
  | cons x xs ih =>
    simp only [qsum, List.foldr_cons, List.sum_cons, qAdd_eq_add]
    simp only [qsum] at ih
    rw [ih]

/-- Characters with equal code points are equal. -/
theorem char_eq_of_toNat_eq {a b : Char} (h : a.toNat = b.toNat) : a = b :=
  Char.eq_of_val_eq (UInt32.ext h)

/-- `strLtB` is asymmetric. -/
theorem strLtB_asymm : ∀ a b : List Char, strLtB a b = true → strLtB b a = false := by
  intro a
  induction a with
  | nil => intro b h; cases b <;> simp_all [strLtB]
  | cons x xs ih =>
    intro b h
    cases b with
    | nil => simp [strLtB] at h
    | cons y ys =>
      simp only [strLtB] at h ⊢
      by_cases h1 : x.toNat < y.toNat
      · simp [h1, Nat.lt_asymm h1]
      · by_cases h2 : y.toNat < x.toNat
        · simp [h1, h2] at h
        · simp only [h1, h2, if_false] at h ⊢
          exact ih ys h

/-- Two lists on which `strLtB` fails both ways are equal. -/
theorem strLtB_eq_of_not_lt : ∀ a b : List Char,
    strLtB a b = false → strLtB b a = false → a = b := by
  intro a
  induction a with
  | nil => intro b h1 _; cases b with
    | nil => rfl
    | cons y ys => simp [strLtB] at h1
  | cons x xs ih =>
    intro b h1 h2
    cases b with
    | nil => simp [strLtB] at h2
    | cons y ys =>
      simp only [strLtB] at h1 h2
      by_cases hx : x.toNat < y.toNat
      · simp [hx] at h1
      · by_cases hy : y.toNat < x.toNat
        · simp [hx, hy] at h2
        · simp only [hx, hy, if_false] at h1 h2
          have hxy : x = y := char_eq_of_toNat_eq (Nat.le_antisymm
            (Nat.le_of_not_lt hy) (Nat.le_of_not_lt hx))
          rw [hxy, ih ys h1 h2]

/-- `strLtB` is transitive. -/
theorem strLtB_trans : ∀ a b c : List Char,
    strLtB a b = true → strLtB b c = true → strLtB a c = true := by
  intro a
  induction a with
  | nil =>
    intro b c h1 h2
    cases b with
    | nil => simp [strLtB] at h1
    | cons y ys => cases c with
      | nil => simp [strLtB] at h2
      | cons z zs => simp [strLtB]
  | cons x xs ih =>
    intro b c h1 h2
    cases b with
    | nil => simp [strLtB] at h1
    | cons y ys =>
      cases c with
      | nil => simp [strLtB] at h2
      | cons z zs =>
        simp only [strLtB] at h1 h2 ⊢
        by_cases hxy : x.toNat < y.toNat
        · by_cases hyz : y.toNat < z.toNat
          · simp [Nat.lt_trans hxy hyz]
          · by_cases hzy : z.toNat < y.toNat
            · simp [hyz, hzy] at h2
            · have : y.toNat = z.toNat := Nat.le_antisymm
                (Nat.le_of_not_lt hzy) (Nat.le_of_not_lt hyz)
              simp [this ▸ hxy]
        · by_cases hyx : y.toNat < x.toNat
          · simp [hxy, hyx] at h1
          · have hxy2 : x.toNat = y.toNat := Nat.le_antisymm
              (Nat.le_of_not_lt hyx) (Nat.le_of_not_lt hxy)
            simp only [hxy, hyx, if_false] at h1
            by_cases hyz : y.toNat < z.toNat
            · simp [hxy2 ▸ hyz]
            · by_cases hzy : z.toNat < y.toNat
              · simp [hyz, hzy] at h2
              · simp only [hyz, hzy, if_false] at h2
                have hyz2 : y.toNat = z.toNat := Nat.le_antisymm
                  (Nat.le_of_not_lt hzy) (Nat.le_of_not_lt hyz)
                have hxz : ¬ x.toNat < z.toNat := by rw [hxy2, hyz2]; exact Nat.lt_irrefl _
                have hzx : ¬ z.toNat < x.toNat := by rw [hxy2, hyz2]; exact Nat.lt_irrefl _
                simp only [hxz, hzx, if_false]
                exact ih ys zs h1 h2

instance : IsTotal String sLe := by
  constructor
  intro a b
  by_cases h : strLtB b.data a.data = true
  · right; simp only [sLe, strLeB, Bool.not_eq_true']; exact strLtB_asymm _ _ h
  · left; simp only [sLe, strLeB, Bool.not_eq_true']
    exact Bool.not_eq_true _ ▸ h

instance : IsTrans String sLe := by
  constructor
  intro a b c hab hbc
  simp only [sLe, strLeB, Bool.not_eq_true'] at hab hbc ⊢
  by_cases h : strLtB b.data c.data = true
  · by_contra hca
    have hca2 : strLtB c.data a.data = true := by
      cases hq : strLtB c.data a.data
      · exact absurd hq hca
      · rfl
    have := strLtB_trans _ _ _ h hca2
    rw [this] at hab
    exact Bool.noConfusion hab
  · have hb : strLtB b.data c.data = false := by
      cases hq : strLtB b.data c.data
      · rfl
      · exact absurd hq h
    have heq : b.data = c.data := strLtB_eq_of_not_lt _ _ hb hbc
    rw [← heq]
    exact hab

instance : IsAntisymm String sLe := by
  constructor
  intro a b hab hba
  simp only [sLe, strLeB, Bool.not_eq_true'] at hab hba
  exact String.ext (strLtB_eq_of_not_lt _ _ hba hab)

/-- The key lists produced by `sortKeys` are sorted. -/
theorem sortKeys_sorted (l : List String) : List.Sorted sLe (sortKeys l) :=
  List.sorted_insertionSort sLe l.dedup

/-- `sortKeys l` is a permutation of `l.dedup`. -/
theorem sortKeys_perm_dedup (l : List String) : (sortKeys l).Perm l.dedup :=
  List.perm_insertionSort sLe l.dedup

/-- Membership in `sortKeys`. -/
theorem mem_sortKeys {a : String} {l : List String} : a ∈ sortKeys l ↔ a ∈ l := by
  rw [(sortKeys_perm_dedup l).mem_iff, List.mem_dedup]

/-- `sortKeys` has no duplicates. -/
theorem sortKeys_nodup (l : List String) : (sortKeys l).Nodup :=
  (sortKeys_perm_dedup l).symm.nodup (List.nodup_dedup l)

/-- `sortKeys` only depends on the multiset of its input. -/
theorem sortKeys_eq_of_perm {l1 l2 : List String} (h : l1.Perm l2) :
    sortKeys l1 = sortKeys l2 :=
  List.eq_of_perm_of_sorted
    ((sortKeys_perm_dedup l1).trans ((h.dedup).trans (sortKeys_perm_dedup l2).symm))
    (sortKeys_sorted l1) (sortKeys_sorted l2)

/-- `writeCell` keeps the number of rows. -/
theorem writeCell_length (t : List (List String)) (cl : Cell) :
    (writeCell t cl).length = t.length := by
  simp [writeCell]

/-- The build fold keeps the number of rows. -/
theorem buildFold_length (rc cc : Nat) :
    ∀ (cells : List Cell) (t : List (List String)),
    (List.foldl (buildStep rc cc) t cells).length = t.length := by
  intro cells
  induction cells with
  | nil => intro t; rfl
  | cons c cs ih =>
    intro t
    rw [List.foldl_cons, ih]
    unfold buildStep
    split <;> simp [writeCell]

/-- `writeCell` keeps the length of every row, provided the target row
is in range. -/
theorem writeCell_rows (t : List (List String)) (cl : Cell) (cc : Nat)
    (hrows : ∀ r ∈ t, r.length = cc) :
    ∀ r ∈ writeCell t cl, r.length = cc := by
  by_cases hlt : cl.rowIndex < t.length
  · intro r hr
    rcases List.mem_or_eq_of_mem_set hr with h | h
    · exact hrows r h
    · subst h
      rw [List.length_set, List.getD_eq_getElem?_getD, List.getElem?_eq_getElem hlt,
        Option.getD_some]
      exact hrows _ (List.getElem_mem hlt)
  · intro r hr
    unfold writeCell at hr
    rw [List.set_eq_of_length_le (Nat.le_of_not_lt hlt)] at hr
    exact hrows r hr

/-- Reading back the exact position just written. -/
theorem getEntry_writeCell_same (t : List (List String)) (cl : Cell)
    (hr : cl.rowIndex < t.length) (hc : cl.columnIndex < (t.getD cl.rowIndex []).length) :
    getEntry (writeCell t cl) cl.rowIndex cl.columnIndex = cl.content := by
  unfold getEntry writeCell
  simp only [List.getD_eq_getElem?_getD] at hc ⊢
  rw [List.getElem?_eq_getElem hr, Option.getD_some] at hc
  simp [List.getElem?_set, hr, hc]

/-- Reading back any other position is unchanged by the write. -/
theorem getEntry_writeCell_ne (t : List (List String)) (cl : Cell) (i j : Nat)
    (hne : ¬(cl.rowIndex = i ∧ cl.columnIndex = j)) :
    getEntry (writeCell t cl) i j = getEntry t i j := by
  unfold getEntry writeCell
  simp only [List.getD_eq_getElem?_getD]
  by_cases hrow : cl.rowIndex = i
  · have hcol : cl.columnIndex ≠ j := fun h => hne ⟨hrow, h⟩
    subst hrow
    by_cases hlen : cl.rowIndex < t.length
    · simp [List.getElem?_set, hlen, hcol, List.getElem?_eq_getElem hlen]
    · simp [List.getElem?_set, hlen, List.getElem?_eq_none (Nat.le_of_not_lt hlen)]
  · simp [List.getElem?_set, hrow]

/-- Every position of the empty grid reads back as `""`. -/
theorem getEntry_emptyGrid (rc cc i j : Nat) : getEntry (emptyGrid rc cc) i j = "" := by
  unfold getEntry emptyGrid
  simp only [List.getD_eq_getElem?_getD, List.getElem?_replicate]
  by_cases hi : i < rc <;> by_cases hj : j < cc <;> simp [hi, hj]

/-- Master description of the build fold: a grid position holds the
content of the last in-range cell written there, and the accumulator's
value if no such cell exists. -/
theorem getEntry_buildFold (rc cc : Nat) :
    ∀ (cells : List Cell) (t : List (List String)),
    t.length = rc → (∀ r ∈ t, r.length = cc) → ∀ i j, i < rc → j < cc →
    getEntry (List.foldl (buildStep rc cc) t cells) i j =
      ((cells.filter (fun cl => cellAt i j cl && cellInRange rc cc cl)).map
        Cell.content).getLastD (getEntry t i j) := by
  intro cells
  induction cells with
  | nil => intro t _ _ i j _ _; rfl
  | cons c cs ih =>
    intro t htl htr i j hi hj
    rw [List.foldl_cons, List.filter_cons]
    by_cases hir : cellInRange rc cc c = true
    · have hr2 : c.rowIndex < rc ∧ c.columnIndex < cc := by
        constructor <;> · have := hir; unfold cellInRange at this; simp at this; omega
      have hstep : buildStep rc cc t c = writeCell t c := if_pos ⟨hr2.1, hr2.2⟩
      have hshape1 : (writeCell t c).length = rc := by rw [writeCell_length, htl]
      have hshape2 : ∀ r ∈ writeCell t c, r.length = cc := writeCell_rows t c cc htr
      by_cases hat : cellAt i j c = true
      · have hpos : c.rowIndex = i ∧ c.columnIndex = j := by
          unfold cellAt at hat; simp at hat; exact hat
        rw [hat, hir]
        simp only [Bool.and_self, if_pos]
        rw [List.map_cons, List.getLastD_cons, hstep, ih (writeCell t c) hshape1 hshape2 i j hi hj]
        congr 1
        rw [← hpos.1, ← hpos.2]
        apply getEntry_writeCell_same
        · rw [htl]; exact hr2.1
        · rw [List.getD_eq_getElem?_getD, List.getElem?_eq_getElem (htl ▸ hr2.1 :
            c.rowIndex < t.length), Option.getD_some, htr _ (List.getElem_mem _)]
          exact hr2.2
      · have hfalse : (cellAt i j c && cellInRange rc cc c) = false := by
          rw [Bool.and_eq_false_iff]; left; exact Bool.not_eq_true _ ▸ hat
        rw [hfalse]
        simp only [Bool.false_eq_true, if_false]
        rw [hstep, ih (writeCell t c) hshape1 hshape2 i j hi hj]
        congr 1
        apply getEntry_writeCell_ne
        intro hcon
        exact hat (by unfold cellAt; simp [hcon.1, hcon.2])
    · have hstep : buildStep rc cc t c = t := by
        unfold buildStep
        rw [if_neg]
        intro hcon
        exact hir (by unfold cellInRange; simp [hcon.1, hcon.2])
      have hfalse : (cellAt i j c && cellInRange rc cc c) = false := by
        rw [Bool.and_eq_false_iff]; right; exact Bool.not_eq_true _ ▸ hir
      rw [hfalse]
      simp only [Bool.false_eq_true, if_false]
      rw [hstep, ih t htl htr i j hi hj]

/-- The build fold keeps every row at width `cc`. -/
theorem buildFold_rows (rc cc : Nat) :
    ∀ (cells : List Cell) (t : List (List String)), t.length = rc →
    (∀ r ∈ t, r.length = cc) →
    ∀ r ∈ List.foldl (buildStep rc cc) t cells, r.length = cc := by
  intro cells
  induction cells with
  | nil => intro t _ ht; exact ht
  | cons c cs ih =>
    intro t htl htr
    rw [List.foldl_cons]
    have h1 : (buildStep rc cc t c).length = rc := by
      unfold buildStep; split <;> simp [writeCell_length, htl]
    have h2 : ∀ r ∈ buildStep rc cc t c, r.length = cc := by
      unfold buildStep; split
      · exact writeCell_rows t c cc htr
      · exact htr
    exact ih _ h1 h2

/-- Out-of-range cells are ignored: the fold over `cells` equals the fold
over the in-range cells only. -/
theorem buildFold_filter (rc cc : Nat) :
    ∀ (cells : List Cell) (t : List (List String)),
    List.foldl (buildStep rc cc) t cells =
      List.foldl (buildStep rc cc) t (cells.filter (cellInRange rc cc)) := by
  intro cells
  induction cells with
  | nil => intro t; rfl
  | cons c cs ih =>
    intro t
    rw [List.foldl_cons, List.filter_cons]
    by_cases h : cellInRange rc cc c = true
    · rw [if_pos h, List.foldl_cons, ih]
    · have hstep : buildStep rc cc t c = t := by
        unfold buildStep
        rw [if_neg]
        intro hcon
        exact h (by unfold cellInRange; simp [hcon.1, hcon.2])
      rw [if_neg h, hstep, ih]

/-- Sum of a pointwise sum of maps. -/
theorem sum_map_add (f g : String → ℚ) :
    ∀ l : List String, (l.map (fun c => f c + g c)).sum = (l.map f).sum + (l.map g).sum := by
  intro l
  induction l with
  | nil => simp
  | cons x xs ih => simp only [List.map_cons, List.sum_cons, ih]; ring

/-- Summing an indicator over a duplicate-free list containing `x` gives
the indicated value. -/
theorem sum_map_indicator (a : ℚ) (x : String) :
    ∀ cs : List String, cs.Nodup → x ∈ cs →
    (cs.map (fun c => if x = c then a else 0)).sum = a := by
  intro cs
  induction cs with
  | nil => intro _ h; cases h
  | cons y ys ih =>
    intro hnd hmem
    rw [List.map_cons, List.sum_cons]
    by_cases h : x = y
    · subst h
      have hnin : x ∉ ys := (List.nodup_cons.mp hnd).1
      have hz : (ys.map (fun c => if x = c then a else 0)).sum = 0 := by
        apply List.sum_eq_zero
        intro q hq
        rcases List.mem_map.mp hq with ⟨c, hc, rfl⟩
        exact if_neg (fun he => hnin (by rw [he]; exact hc))
      rw [if_pos rfl, hz, add_zero]
    · rw [if_neg h, zero_add]
      rcases List.mem_cons.mp hmem with h1 | h1
      · exact absurd h1 h
      · exact ih (List.nodup_cons.mp hnd).2 h1

/-- Partitioning a record sum by code: summing the per-code filtered sums
over a duplicate-free code list covering the records gives the total sum. -/
theorem sum_filter_codes :
    ∀ (ys : List IncomeRecord) (cs : List String), cs.Nodup →
    (∀ r ∈ ys, r.code ∈ cs) →
    (cs.map (fun c => ((ys.filter (fun r => r.code == c)).map IncomeRecord.amount).sum)).sum
      = (ys.map IncomeRecord.amount).sum := by
  intro ys
  induction ys with
  | nil => intro cs _ _; simp
  | cons r ys ih =>
    intro cs hnd hcov
    have hcovr : ∀ x ∈ ys, x.code ∈ cs := fun x hx => hcov x (List.mem_cons_of_mem r hx)
    have hr : r.code ∈ cs := hcov r (List.mem_cons_self r ys)
    have key : ∀ c : String,
        (((r :: ys).filter (fun x => x.code == c)).map IncomeRecord.amount).sum
        = (if r.code = c then r.amount else 0)
          + ((ys.filter (fun x => x.code == c)).map IncomeRecord.amount).sum := by
      intro c
      rw [List.filter_cons]
      by_cases h : r.code = c
      · simp [h]
      · have hb : (r.code == c) = false := beq_eq_false_iff_ne.mpr h
        simp [h, hb]
    calc (cs.map (fun c =>
            (((r :: ys).filter (fun x => x.code == c)).map IncomeRecord.amount).sum)).sum
        = (cs.map (fun c => (if r.code = c then r.amount else 0)
            + ((ys.filter (fun x => x.code == c)).map IncomeRecord.amount).sum)).sum := by
          congr 1
          exact List.map_congr_left (fun c _ => key c)
      _ = (cs.map (fun c => if r.code = c then r.amount else 0)).sum
            + (cs.map (fun c =>
                ((ys.filter (fun x => x.code == c)).map IncomeRecord.amount).sum)).sum :=
          sum_map_add _ _ cs
      _ = r.amount + (ys.map IncomeRecord.amount).sum := by
          rw [sum_map_indicator r.amount r.code cs hnd hr, ih cs hnd hcovr]
      _ = ((r :: ys).map IncomeRecord.amount).sum := by simp

/-- The bucket filter factors through the year filter. -/
theorem bucket_eq_filter_filter (records : List IncomeRecord) (y c : String) :
    bucket records y c
      = (records.filter (fun r => r.year == y)).filter (fun r => r.code == c) := by
  unfold bucket
  rw [List.filter_filter]
  apply List.filter_congr
  intro r _
  exact Bool.and_comm _ _

/-- `List.lookup` on a key-indexed map: a hit returns the mapped value of
the key looked up. -/
theorem lookup_keys_map (f : String → YearLedger) :
    ∀ (ys : List String) (y : String) (L : YearLedger),
    List.lookup y (ys.map (fun k => (k, f k))) = some L → L = f y := by
  intro ys
  induction ys with
  | nil => intro y L h; simp [List.lookup] at h
  | cons k ks ih =>
    intro y L h
    rw [List.map_cons, List.lookup_cons] at h
    cases hk : (y == k) with
    | true =>
      rw [hk] at h
      simp only [Option.some.injEq] at h
      have hyk : y = k := beq_iff_eq.mp hk
      rw [hyk, ← h]
    | false =>
      rw [hk] at h
      exact ih y L h

/-- A cell without the `"рік"` keyword never sets `col_year`. -/
theorem scanCell_col_year (st : HeaderState) (i : Nat) (cell : String)
    (h : containsSub (lowerStr cell.data) rikKw = false) :
    (scanCell st i cell).col_year = st.col_year := by
  unfold scanCell
  simp only [h, Bool.false_eq_true, if_false]
  split <;> split <;> rfl

/-- A row without the `"рік"` keyword never sets `col_year`. -/
theorem scanRowFrom_col_year :
    ∀ (row : List String) (st : HeaderState) (i : Nat),
    (∀ cell ∈ row, containsSub (lowerStr cell.data) rikKw = false) →
    (scanRowFrom st i row).col_year = st.col_year := by
  intro row
  induction row with
  | nil => intro st i _; rfl
  | cons c cs ih =>
    intro st i hall
    rw [scanRowFrom, ih _ _ (fun cell hc => hall cell (List.mem_cons_of_mem c hc)),
      scanCell_col_year st i c (hall c (List.mem_cons_self c cs))]

/-- Rows without the `"рік"` keyword never set `col_year`. -/
theorem scanGridRows_col_year :
    ∀ (rows : List (List String)) (st : HeaderState),
    (∀ row ∈ rows, ∀ cell ∈ row, containsSub (lowerStr cell.data) rikKw = false) →
    (scanGridRows st rows).col_year = st.col_year := by
  intro rows
  induction rows with
  | nil => intro st _; rfl
  | cons r rs ih =>
    intro st hall
    rw [scanGridRows, ih _ (fun row hr => hall row (List.mem_cons_of_mem r hr)), scanRow,
      scanRowFrom_col_year r st 0 (hall r (List.mem_cons_self r rs))]

/-- One table step with `col_year` still undetermined and no `"рік"`
keyword in its scan window: the records are untouched and `col_year`
stays undetermined. -/
theorem processTablePart_no_year (st : ExtractState) (idx : Nat) (tab : Table)
    (hkw : ∀ row ∈ (build_table_structure tab.cells tab.rowCount tab.columnCount).take 5,
      ∀ cell ∈ row, containsSub (lowerStr cell.data) rikKw = false)
    (hy : st.header.col_year = none) :
    (processTablePart st idx tab).records = st.records ∧
      (processTablePart st idx tab).header.col_year = none := by
  unfold processTablePart
  by_cases hc : tab.cells.isEmpty = true
  · simp [hc, hy]
  · simp only [hc, Bool.false_eq_true, if_false]
    have hhdr : (if st.header.header_found then st.header
        else scanGrid st.header
          (build_table_structure tab.cells tab.rowCount tab.columnCount)).col_year = none := by
      by_cases hf : st.header.header_found = true
      · simp [hf, hy]
      · simp only [hf, Bool.false_eq_true, if_false]
        unfold scanGrid
        rw [scanGridRows_col_year _ _ hkw, hy]
    split
    · next cy ca cc heq _ _ =>
      rw [hhdr] at heq
      exact absurd heq (by simp)
    · next => exact ⟨rfl, hhdr⟩

/-- With `col_year` never determined (no `"рік"` keyword in any scan
window), the whole table loop produces no records. -/
theorem processTables_no_year :
    ∀ (tables : List Table) (st : ExtractState) (idx : Nat),
    (∀ tab ∈ tables,
      ∀ row ∈ (build_table_structure tab.cells tab.rowCount tab.columnCount).take 5,
      ∀ cell ∈ row, containsSub (lowerStr cell.data) rikKw = false) →
    st.header.col_year = none →
    (processTables st idx tables).records = st.records := by
  intro tables
  induction tables with
  | nil => intro st idx _ _; rfl
  | cons tab ts ih =>
    intro st idx hall hy
    rw [processTables]
    have hstep := processTablePart_no_year st idx tab
      (hall tab (List.mem_cons_self tab ts)) hy
    rw [ih _ _ (fun t ht => hall t (List.mem_cons_of_mem tab ht)) hstep.2, hstep.1]

/-- Evaluation of one table step when the header scan of its grid
determines all three columns. -/
theorem processTablePart_found (st : ExtractState) (idx : Nat) (tab : Table)
    (g : List (List String)) (cy ca cc : Nat)
    (hcells : tab.cells.isEmpty = false)
    (hg : build_table_structure tab.cells tab.rowCount tab.columnCount = g)
    (hfound : st.header.header_found = false)
    (hscan : scanGrid st.header g = foundHeader cy ca cc) :
    processTablePart st idx tab =
      { header := foundHeader cy ca cc,
        records := st.records ++ (g.drop (if idx = 0 then 1 else 0)).filterMap
          (extractRowRecord cy ca cc) } := by
  unfold processTablePart
  simp only [hcells, Bool.false_eq_true, if_false, hg, hfound, hscan]
  rfl

/-- Evaluation of one table step when the columns are already known from
an earlier fragment. -/
theorem processTablePart_after (st : ExtractState) (idx : Nat) (tab : Table)
    (cy ca cc : Nat)
    (hcells : tab.cells.isEmpty = false)
    (hst : st.header = foundHeader cy ca cc) :
    processTablePart st idx tab =
      { header := st.header,
        records := st.records ++
          ((build_table_structure tab.cells tab.rowCount tab.columnCount).drop
            (if idx = 0 then 1 else 0)).filterMap (extractRowRecord cy ca cc) } := by
  unfold processTablePart
  simp only [hcells, Bool.false_eq_true, if_false, hst]
  rfl

/-- `yearsOf` only depends on the multiset of records. -/
theorem yearsOf_perm {l1 l2 : List IncomeRecord} (h : l1.Perm l2) :
    yearsOf l1 = yearsOf l2 :=
  sortKeys_eq_of_perm (h.map IncomeRecord.year)

/-- `codesOf` only depends on the multiset of records. -/
theorem codesOf_perm {l1 l2 : List IncomeRecord} (h : l1.Perm l2) (y : String) :
    codesOf l1 y = codesOf l2 y :=
  sortKeys_eq_of_perm ((h.filter (fun r => r.year == y)).map IncomeRecord.code)

/-- Bucket sums only depend on the multiset of records. -/
theorem bucketTotal_perm {l1 l2 : List IncomeRecord} (h : l1.Perm l2) (y c : String) :
    bucketTotal l1 y c = bucketTotal l2 y c := by
  unfold bucketTotal bucket
  rw [qsum_eq_sum, qsum_eq_sum]
  exact ((h.filter _).map IncomeRecord.amount).sum_eq

/-- C1 (counterexample): a concrete document whose printed subtotal row
(150.00) exactly matches the sum of its data rows (100.00 + 50.00), yet
the output of `parse` carries no verification object at all, against the
claim that `verification.total_match = true` with empty mismatches. -/
theorem c1_counterexample :
    (parse c1doc).verification = none ∧ (parse c1doc).success = true ∧
    (List.lookup "2022" (parse c1doc).data).map YearLedger.total = some (mkRat 150 1) := by
  decide

/-- C1 (amended): `parse` never emits a verification object on any input;
no reconciliation of printed subtotal rows against aggregated totals is
performed anywhere in the program. -/
theorem c1_no_verification (x : Option AzurePayload) : (parse x).verification = none := by
  rcases x with _ | ⟨_ | ⟨_ | c, tbls⟩⟩ <;> rfl

/-- C3 (counterexample): a structurally valid payload with zero table
fragments (fewer than two) parses with `success = true`, against the
claim that fewer than two fragments is a structural failure. -/
theorem c3_counterexample :
    (parse c3doc).success = true ∧
    (c3doc.map (fun p => p.analyzeResult.map (fun ar => ar.tables.length))) =
      some (some 0) := by
  decide

/-- C3 (amended): `parse` fails exactly when `validate_result` rejects the
payload (empty result, missing `analyzeResult`, missing `content`), with
the raised message returned as the error string; the number of table
fragments is never checked, and the embedded `parse` is total, so no
exception escapes the boundary. -/
theorem c3_failure_iff_invalid (x : Option AzurePayload) :
    (parse x).success = (validate_result x).isOk ∧
    (parse x).error = (match validate_result x with
      | Except.error e => some e
      | Except.ok _ => none) := by
  rcases x with _ | ⟨_ | ⟨_ | c, tbls⟩⟩ <;> exact ⟨rfl, rfl⟩

/-- C4 (counterexample): with two fragments, the data row of the very
first fragment is extracted (only its row 0 is skipped), and the second
fragment contributes its rows although it has no column-0 `"1"` anchor
row and the parse does not fail, against the claim that the first
fragment is skipped entirely. -/
theorem c4_counterexample :
    extract_from_merged_tables [c4tblA, c4tblB] =
      [ { year := "2022", code := "101", code_name := "", amount := mkRat 100 1 },
        { year := "2023", code := "102", code_name := "", amount := mkRat 50 1 } ] := by
  decide

/-- C4 (amended): when the keyword scan of the first fragment's grid
locates all three columns, extraction from that single fragment skips
only its row 0 (the header row) and extracts from every following row;
nothing anchors on a column-0 `"1"` row and a missing anchor never fails
the parse. -/
theorem c4_first_fragment_extracted (tab : Table) (g : List (List String)) (cy ca cc : Nat)
    (hcells : tab.cells.isEmpty = false)
    (hg : build_table_structure tab.cells tab.rowCount tab.columnCount = g)
    (hscan : scanGrid initHeader g = foundHeader cy ca cc) :
    extract_from_merged_tables [tab] = (g.drop 1).filterMap (extractRowRecord cy ca cc) := by
  unfold extract_from_merged_tables
  simp only [processTables]
  rw [processTablePart_found {} 0 tab g cy ca cc hcells hg rfl hscan]
  simp

/-- C4 (witness). -/
theorem c4_witness :
    extract_from_merged_tables [c4wtbl] =
      ((build_table_structure c4wtbl.cells c4wtbl.rowCount c4wtbl.columnCount).drop 1).filterMap
        (extractRowRecord 0 1 2) :=
  c4_first_fragment_extracted c4wtbl _ 0 1 2 (by decide) rfl (by decide)

/-- C5 (counterexample): no row of this table has column-0 text `"1"`,
so the claimed Header Locator would signal not-found, yet the keyword
scan identifies the columns and a data record is extracted. -/
theorem c5_counterexample :
    (∀ row ∈ build_table_structure c5tbl.cells c5tbl.rowCount c5tbl.columnCount,
      row.getD 0 "" ≠ "1") ∧
    extract_from_merged_tables [c5tbl] =
      [ { year := "2024", code := "103", code_name := "", amount := mkRat 75 1 } ] := by
  decide

/-- C5 (amended): column identity comes from a keyword substring scan
(`"рік"` for the year column, which also flips `header_found`), not from
a column-0 `"1"` anchor row; when the keyword appears nowhere in any
fragment's five-row scan window, no columns are ever identified and the
extraction returns no records (without failing). -/
theorem c5_no_keyword_no_records (tables : List Table)
    (h : ∀ tab ∈ tables,
      ∀ row ∈ (build_table_structure tab.cells tab.rowCount tab.columnCount).take 5,
      ∀ cell ∈ row, containsSub (lowerStr cell.data) rikKw = false) :
    extract_from_merged_tables tables = [] := by
  unfold extract_from_merged_tables
  rw [processTables_no_year tables {} 0 h rfl]

/-- C5 (witness). -/
theorem c5_witness : extract_from_merged_tables [c5wtbl] = [] :=
  c5_no_keyword_no_records [c5wtbl] (by decide)

/-- C8: a stitched row whose year, amount or code fails to extract is
dropped (`extractRowRecord` returns `none`); dropping a row leaves the
extraction of all surrounding rows untouched; and `parse` on any payload
accepted by validation returns `success = true`, the embedded functions
being total so that no row-level failure escapes — including when zero
valid records remain. -/
theorem c8_row_failures_degrade :
    (∀ (cy ca cc : Nat) (row : List String),
      findYear (row.getD cy "").data = none ∨
      findAmount (commaToDot (removeSpaces (row.getD ca "").data)) = none ∨
      findCode (row.getD cc "").data = none →
      extractRowRecord cy ca cc row = none) ∧
    (∀ (cy ca cc : Nat) (pre post : List (List String)) (row : List String),
      extractRowRecord cy ca cc row = none →
      (pre ++ row :: post).filterMap (extractRowRecord cy ca cc)
        = pre.filterMap (extractRowRecord cy ca cc)
          ++ post.filterMap (extractRowRecord cy ca cc)) ∧
    (∀ x : Option AzurePayload, (validate_result x).isOk = true →
      (parse x).success = true) := by
  refine ⟨?_, ?_, ?_⟩
  · intro cy ca cc row h
    simp only [extractRowRecord]
    split
    · rfl
    · split
      · rfl
      · rcases h with hy | ha | hc
        · rw [hy]
        · cases hyv : findYear (row.getD cy "").data
          · rfl
          · rw [ha]
        · cases hyv : findYear (row.getD cy "").data
          · rfl
          · cases hav : findAmount (commaToDot (removeSpaces (row.getD ca "").data))
            · rfl
            · rw [hc]
  · intro cy ca cc pre post row h
    rw [List.filterMap_append]
    congr 1
    rw [List.filterMap_cons, h]
  · intro x hx
    rcases x with _ | ⟨_ | ⟨_ | c, tbls⟩⟩
    · simp [validate_result, Except.isOk, Except.toBool] at hx
    · simp [validate_result, Except.isOk, Except.toBool] at hx
    · simp [validate_result, Except.isOk, Except.toBool] at hx
    · rfl

/-- C8 (witness). -/
theorem c8_witness :
    extractRowRecord 0 1 2 ["2022", "немає", "101"] = none ∧
    ([["рік", "x", "y"], ["2022", "немає", "101"], ["2023", "5.00", "104"]].filterMap
        (extractRowRecord 0 1 2)
      = [["рік", "x", "y"]].filterMap (extractRowRecord 0 1 2)
        ++ [["2023", "5.00", "104"]].filterMap (extractRowRecord 0 1 2)) ∧
    (parse c8doc).success = true ∧ (parse c8doc).data = [] :=
  ⟨c8_row_failures_degrade.1 0 1 2 _ (Or.inr (Or.inl (by decide))),
   c8_row_failures_degrade.2.1 0 1 2 [["рік", "x", "y"]] [["2023", "5.00", "104"]] _
     (c8_row_failures_degrade.1 0 1 2 _ (Or.inr (Or.inl (by decide)))),
   c8_row_failures_degrade.2.2 c8doc (by decide), by decide⟩

/-- C9: the Grid Builder is total: its grid has exactly `rowCount` rows
of exactly `columnCount` entries each, cells with out-of-range indices
are ignored (the build over all cells equals the build over the in-range
cells), and every position not written by any in-range cell reads back as
the empty string. -/
theorem c9_grid_builder_total (cells : List Cell) (rc cc : Nat) :
    (build_table_structure cells rc cc).length = rc ∧
    (∀ row ∈ build_table_structure cells rc cc, row.length = cc) ∧
    build_table_structure cells rc cc
      = build_table_structure (cells.filter (cellInRange rc cc)) rc cc ∧
    (∀ i j, i < rc → j < cc →
      (∀ cl ∈ cells, (cellAt i j cl && cellInRange rc cc cl) = false) →
      getEntry (build_table_structure cells rc cc) i j = "") := by
  have hlen : (emptyGrid rc cc).length = rc := by simp [emptyGrid]
  have hrows : ∀ r ∈ emptyGrid rc cc, r.length = cc := by
    intro r hr
    rw [List.eq_of_mem_replicate hr]
    exact List.length_replicate cc ""
  refine ⟨?_, ?_, ?_, ?_⟩
  · unfold build_table_structure
    exact (buildFold_length rc cc cells _).trans hlen
  · exact buildFold_rows rc cc cells _ hlen hrows
  · exact buildFold_filter rc cc cells _
  · intro i j hi hj hnone
    unfold build_table_structure
    rw [getEntry_buildFold rc cc cells _ hlen hrows i j hi hj]
    have hf : cells.filter (fun cl => cellAt i j cl && cellInRange rc cc cl) = [] := by
      rw [List.filter_eq_nil_iff]
      intro cl hcl
      rw [hnone cl hcl]
      simp
    rw [hf]
    exact getEntry_emptyGrid rc cc i j

/-- C9 (witness). -/
theorem c9_witness :
    (build_table_structure c9cells 2 2).length = 2 ∧
    getEntry (build_table_structure c9cells 2 2) 1 0 = "" :=
  ⟨(c9_grid_builder_total c9cells 2 2).1,
   (c9_grid_builder_total c9cells 2 2).2.2.2 1 0 (by decide) (by decide) (by decide)⟩

/-- C10: last write wins: when a later cell `b` shares its (in-range)
position with an earlier cell `a` and no cell after `b` addresses that
position again, the built grid holds `b`'s content there, overwriting
`a`'s. -/
theorem c10_last_write_wins (pre mid post : List Cell) (a b : Cell) (rc cc : Nat)
    (hrow : a.rowIndex = b.rowIndex) (hcol : a.columnIndex = b.columnIndex)
    (hr : b.rowIndex < rc) (hc : b.columnIndex < cc)
    (hpost : ∀ cl ∈ post, cellAt b.rowIndex b.columnIndex cl = false) :
    getEntry (build_table_structure (pre ++ a :: mid ++ b :: post) rc cc)
      b.rowIndex b.columnIndex = b.content := by
  have hlen : (emptyGrid rc cc).length = rc := by simp [emptyGrid]
  have hrows : ∀ r ∈ emptyGrid rc cc, r.length = cc := by
    intro r hrm
    rw [List.eq_of_mem_replicate hrm]
    exact List.length_replicate cc ""
  unfold build_table_structure
  rw [getEntry_buildFold rc cc _ _ hlen hrows _ _ hr hc]
  have hfb : (cellAt b.rowIndex b.columnIndex b && cellInRange rc cc b) = true := by
    simp [cellAt, cellInRange, hr, hc]
  have hfpost : post.filter
      (fun cl => cellAt b.rowIndex b.columnIndex cl && cellInRange rc cc cl) = [] := by
    rw [List.filter_eq_nil_iff]
    intro cl hcl
    rw [hpost cl hcl]
    simp
  by_cases hfa : (cellAt b.rowIndex b.columnIndex a && cellInRange rc cc a) = true <;>
    simp [List.filter_append, List.filter_cons, hfa, hfb, hfpost, List.map_append,
      ← List.append_assoc, List.getLastD_concat]

/-- C10 (witness). -/
theorem c10_witness :
    getEntry (build_table_structure ([] ++ c10a :: [] ++ c10b :: []) 2 2) 1 1 = "second" :=
  c10_last_write_wins [] [] [] c10a c10b 2 2 rfl rfl (by decide) (by decide) (by decide)

/-- C2: in the grouped output, every year's `_total` equals the rounded
sum of that year's per-code amounts (equivalently, of all that year's
record amounts): it is recomputed from the grouped per-code totals during
output conversion rather than accumulated separately. -/
theorem c2_total_recomputed (records : List IncomeRecord) (y : String) (L : YearLedger)
    (h : List.lookup y (group_and_sum records) = some L) :
    L.total
      = round2 (qsum ((records.filter (fun r => r.year == y)).map IncomeRecord.amount)) := by
  unfold group_and_sum at h
  have hL := lookup_keys_map (yearLedgerOf records) (yearsOf records) y L h
  rw [hL]
  show round2 (qsum ((codesOf records y).map (fun c => bucketTotal records y c))) = _
  congr 1
  rw [qsum_eq_sum, qsum_eq_sum]
  have hpt : ∀ c : String, bucketTotal records y c =
      (((records.filter (fun r => r.year == y)).filter (fun r => r.code == c)).map
        IncomeRecord.amount).sum := by
    intro c
    unfold bucketTotal
    rw [qsum_eq_sum, bucket_eq_filter_filter]
  rw [List.map_congr_left (fun c _ => hpt c)]
  exact sum_filter_codes (records.filter (fun r => r.year == y)) (codesOf records y)
    (sortKeys_nodup _)
    (fun r hr => mem_sortKeys.mpr (List.mem_map_of_mem IncomeRecord.code hr))

/-- C2 (witness). -/
theorem c2_witness :
    ({ entries := [("101", { name := "", amount := mkRat 3 2 }),
                   ("102", { name := "", amount := mkRat 1 2 })],
       total := mkRat 2 1 } : YearLedger).total
      = round2 (qsum ((c2recs.filter (fun r => r.year == "2022")).map IncomeRecord.amount)) :=
  c2_total_recomputed c2recs "2022" _ (by decide)

/-- Projecting the keys back out of a key-indexed pair list. -/
theorem map_fst_pair {β : Type} (g : String → β) (l : List String) :
    (l.map (fun k => (k, g k))).map Prod.fst = l := by
  induction l with
  | nil => rfl
  | cons x xs ih => simp [ih]

/-- C6 (counterexample): swapping two records that share a year and code
but carry different names changes the grouped output (the first non-empty
name wins), so the grouped output is not invariant under permutation of
the input records. -/
theorem c6_counterexample :
    [c6rec1, c6rec2].Perm [c6rec2, c6rec1] ∧
    group_and_sum [c6rec1, c6rec2] ≠ group_and_sum [c6rec2, c6rec1] := by
  constructor
  · exact List.Perm.swap c6rec2 c6rec1 []
  · decide

/-- C6 (amended): year keys and, within a year, code keys are emitted in
ascending sorted order; and everything except the `name` fields — the key
structure, the per-code amounts and the `_total` values — is invariant
under any permutation of the input records.  (The `name` fields take the
first non-empty name in arrival order and may depend on the order.) -/
theorem c6_sorted_and_amounts_order_free (l1 l2 : List IncomeRecord) (h : l1.Perm l2) :
    ((group_and_sum l1).map Prod.fst).Sorted sLe ∧
    (∀ p ∈ group_and_sum l1, (p.2.entries.map Prod.fst).Sorted sLe) ∧
    eraseNames (group_and_sum l1) = eraseNames (group_and_sum l2) := by
  refine ⟨?_, ?_, ?_⟩
  · unfold group_and_sum
    rw [map_fst_pair]
    exact sortKeys_sorted _
  · intro p hp
    unfold group_and_sum at hp
    rcases List.mem_map.mp hp with ⟨y, hy, rfl⟩
    show ((yearLedgerOf l1 y).entries.map Prod.fst).Sorted sLe
    unfold yearLedgerOf
    rw [map_fst_pair]
    exact sortKeys_sorted _
  · unfold eraseNames group_and_sum yearLedgerOf
    rw [List.map_map, List.map_map, yearsOf_perm h]
    apply List.map_congr_left
    intro y hy
    have hbt : ∀ c, bucketTotal l1 y c = bucketTotal l2 y c := fun c => bucketTotal_perm h y c
    simp only [Function.comp_def, List.map_map]
    rw [codesOf_perm h y]
    apply congrArg
    congr 1
    · exact List.map_congr_left (fun c _ => by simp [hbt c])
    · exact congrArg round2 (congrArg qsum (List.map_congr_left (fun c _ => hbt c)))

/-- C6 (witness). -/
theorem c6_witness :
    ((group_and_sum [c6rec1, c6rec2]).map Prod.fst).Sorted sLe ∧
    (∀ p ∈ group_and_sum [c6rec1, c6rec2], (p.2.entries.map Prod.fst).Sorted sLe) ∧
    eraseNames (group_and_sum [c6rec1, c6rec2])
      = eraseNames (group_and_sum [c6rec2, c6rec1]) :=
  c6_sorted_and_amounts_order_free [c6rec1, c6rec2] [c6rec2, c6rec1]
    (List.Perm.swap c6rec2 c6rec1 [])

/-- C7 (counterexample): the unsplit table really is the row-wise
concatenation of the two fragments, the header row appears only in the
first fragment, yet the aggregated ledgers differ: the first fragment has
only two rows, so the unsplit presentation's five-row keyword scan
reaches a continuation data row whose code name contains
`"нарахованого"`, re-assigning the amount column. -/
theorem c7_counterexample :
    build_table_structure c7btblU.cells c7btblU.rowCount c7btblU.columnCount
      = build_table_structure c7btbl0.cells c7btbl0.rowCount c7btbl0.columnCount
        ++ build_table_structure c7btbl1.cells c7btbl1.rowCount c7btbl1.columnCount ∧
    group_and_sum (extract_from_merged_tables [c7btbl0, c7btbl1])
      ≠ group_and_sum (extract_from_merged_tables [c7btblU]) := by
  decide

/-- C7 (amended): splitting one logical table's data rows across three
fragments, with the header row only in the first, produces the same
records and hence the same aggregated ledger as the single unsplit
fragment — provided the anchored fragment spans the whole five-row
header-scan window, so that the split and unsplit presentations scan the
same rows; the column positions found in the anchored fragment are reused
for the headerless continuation fragments. -/
theorem c7_fragment_merge (t0 t1 t2 tU : Table) (g0 g1 g2 : List (List String))
    (cy ca cc : Nat)
    (h0 : t0.cells.isEmpty = false) (h1 : t1.cells.isEmpty = false)
    (h2 : t2.cells.isEmpty = false) (hU : tU.cells.isEmpty = false)
    (hg1 : build_table_structure t1.cells t1.rowCount t1.columnCount = g1)
    (hg2 : build_table_structure t2.cells t2.rowCount t2.columnCount = g2)
    (hg0 : build_table_structure t0.cells t0.rowCount t0.columnCount = g0)
    (hgU : build_table_structure tU.cells tU.rowCount tU.columnCount = g0 ++ (g1 ++ g2))
    (h5 : 5 ≤ g0.length)
    (hscan : scanGrid initHeader g0 = foundHeader cy ca cc) :
    extract_from_merged_tables [t0, t1, t2] = extract_from_merged_tables [tU] ∧
    group_and_sum (extract_from_merged_tables [t0, t1, t2])
      = group_and_sum (extract_from_merged_tables [tU]) := by
  have hscanU : scanGrid initHeader (g0 ++ (g1 ++ g2)) = foundHeader cy ca cc := by
    unfold scanGrid at hscan ⊢
    rw [List.take_append_of_le_length h5]
    exact hscan
  have hrec : extract_from_merged_tables [t0, t1, t2] = extract_from_merged_tables [tU] := by
    unfold extract_from_merged_tables
    simp only [processTables]
    rw [processTablePart_found {} 0 t0 g0 cy ca cc h0 hg0 rfl hscan]
    rw [processTablePart_after _ 1 t1 cy ca cc h1 rfl]
    rw [processTablePart_after _ 2 t2 cy ca cc h2 rfl]
    rw [processTablePart_found {} 0 tU (g0 ++ (g1 ++ g2)) cy ca cc hU hgU rfl hscanU]
    simp only [hg1, hg2]
    have hd : (g0 ++ (g1 ++ g2)).drop 1 = g0.drop 1 ++ (g1 ++ g2) :=
      List.drop_append_of_le_length (by omega)
    simp [hd, List.filterMap_append]
  exact ⟨hrec, by rw [hrec]⟩

/-- C7 (witness). -/
theorem c7_witness :
    extract_from_merged_tables [c7tbl0, c7tbl1, c7tbl2] = extract_from_merged_tables [c7tblU] ∧
    group_and_sum (extract_from_merged_tables [c7tbl0, c7tbl1, c7tbl2])
      = group_and_sum (extract_from_merged_tables [c7tblU]) :=
  c7_fragment_merge c7tbl0 c7tbl1 c7tbl2 c7tblU
    (build_table_structure c7tbl0.cells c7tbl0.rowCount c7tbl0.columnCount)
    (build_table_structure c7tbl1.cells c7tbl1.rowCount c7tbl1.columnCount)
    (build_table_structure c7tbl2.cells c7tbl2.rowCount c7tbl2.columnCount)
    0 1 2 (by decide) (by decide) (by decide) (by decide) rfl rfl rfl (by decide)
    (by decide) (by decide)
